import Mathlib

/-!
Shallow embedding of the frontend chatbot repository: the authenticated
HTTP client and token store of src/services/api.ts, and the response
normalizer plus property-list pagination of the Chatbot UI component.

JavaScript values returned by JSON.parse are modelled by the inductive
type JsVal; absent object properties are modelled by Option (none means
the access evaluates to undefined); the nullish-coalescing operator is
modelled by jsCoalesce. JavaScript numbers are modelled by Int (the
program only manipulates integral millisecond and second counts).
-/

namespace ChatbotFrontend

/-- A JSON-parseable JavaScript value. -/
inductive JsVal where
  | str (s : String)
  | num (n : Int)
  | bool (b : Bool)
  | null
  | arr (xs : List JsVal)
  | obj (fields : List (String × JsVal))

mutual

/-- JavaScript String(v) conversion, restricted to JSON-parseable values:
strings stay, numbers print in decimal, booleans print true or false,
null prints null, arrays join their element strings with commas with
null elements printed empty, plain objects print as object Object in
brackets. -/
def jsToString : JsVal → String
  | JsVal.str s => s
  | JsVal.num n => toString n
  | JsVal.bool b => if b then "true" else "false"
  | JsVal.null => "null"
  | JsVal.obj _ => "[object Object]"
  | JsVal.arr xs => jsArrJoin xs

def jsArrJoin : List JsVal → String
  | [] => ""
  | [JsVal.null] => ""
  | [x] => jsToString x
  | JsVal.null :: y :: xs => "," ++ jsArrJoin (y :: xs)
  | x :: y :: xs => jsToString x ++ "," ++ jsArrJoin (y :: xs)

end

/-- Property access o[k] (with optional chaining): on a plain object the
value of the last binding of k (JSON.parse keeps the last duplicate),
none when the key is absent or the value is not an object. -/
def jsField (v : JsVal) (k : String) : Option JsVal :=
  match v with
  | JsVal.obj fields => (fields.reverse.find? (fun p => p.1 == k)).map (fun p => p.2)
  | _ => none

/-- The nullish-coalescing operator x ?? y: x unless x is undefined
(none) or null, else y. -/
def jsCoalesce (x : Option JsVal) (y : JsVal) : JsVal :=
  match x with
  | some JsVal.null => y
  | some v => v
  | none => y

/-- A right-nested chain x1 ?? x2 ?? ... ?? dflt. -/
def chainVal (l : List (Option JsVal)) (dflt : JsVal) : JsVal :=
  match l with
  | [] => dflt
  | x :: rest => jsCoalesce x (chainVal rest dflt)

/-- The first entry of the list that is present (some) and not null. -/
def firstNonNullish : List (Option JsVal) → Option JsVal
  | [] => none
  | x :: rest =>
    match x with
    | some JsVal.null => firstNonNullish rest
    | some v => some v
    | none => firstNonNullish rest

/-- The uniform option model produced by the normalizer. -/
structure QuickButton where
  label : String
  value : String
deriving Repr, DecidableEq

/-- The object branch of normalizeOptions: label is
String(o.label ?? o.text ?? o.name ?? o.title ?? o.value ?? o.id ?? '')
and value is String(o.value ?? o.id ?? o.label ?? o.text ?? o.name ?? ''),
with optional chaining on every access. -/
def normalizeObjOption (o : JsVal) : QuickButton :=
  { label := jsToString (jsCoalesce (jsField o "label") (jsCoalesce (jsField o "text")
      (jsCoalesce (jsField o "name") (jsCoalesce (jsField o "title")
      (jsCoalesce (jsField o "value") (jsCoalesce (jsField o "id") (JsVal.str "")))))))
  , value := jsToString (jsCoalesce (jsField o "value") (jsCoalesce (jsField o "id")
      (jsCoalesce (jsField o "label") (jsCoalesce (jsField o "text")
      (jsCoalesce (jsField o "name") (JsVal.str "")))))) }

/-- normalizeOptions from the Chatbot component: non-arrays give [],
an array whose first element is a string maps every element s to
String(s) for both label and value, any other array maps every element
through the object branch. -/
def normalizeOptions (v : JsVal) : List QuickButton :=
  match v with
  | JsVal.arr xs =>
    match xs with
    | JsVal.str _ :: _ =>
      xs.map (fun s => { label := jsToString s, value := jsToString s })
    | _ => xs.map normalizeObjOption
  | _ => []

/-- Array.isArray. -/
def isArrayVal : JsVal → Bool
  | JsVal.arr _ => true
  | _ => false

/-- The value of field k of resp when Array.isArray(resp?.[k]), else none. -/
def arrField (resp : JsVal) (k : String) : Option JsVal :=
  match jsField resp k with
  | some v => if isArrayVal v then some v else none
  | none => none

/-- rawButtons in sendPrompt: the first of the fields buttons, options,
choices whose value is an array, else null. -/
def rawButtons (resp : JsVal) : Option JsVal :=
  match arrField resp "buttons" with
  | some v => some v
  | none =>
    match arrField resp "options" with
    | some v => some v
    | none => arrField resp "choices"

/-- rawDropdown in sendPrompt: the first of the fields dropdown,
select_options whose value is an array, else null. -/
def rawDropdown (resp : JsVal) : Option JsVal :=
  match arrField resp "dropdown" with
  | some v => some v
  | none => arrField resp "select_options"

/-- The buttons value computed by sendPrompt: normalizeOptions applied to
the selected source when one exists, else null. -/
def sendPromptButtons (resp : JsVal) : Option (List QuickButton) :=
  (rawButtons resp).map normalizeOptions

/-- The dropdown value computed by sendPrompt. -/
def sendPromptDropdown (resp : JsVal) : Option (List QuickButton) :=
  (rawDropdown resp).map normalizeOptions

/-- The test resp and typeof resp is object and data in resp, on
JSON-parseable values: resp is a plain object owning the key data. -/
def hasDataKey : JsVal → Bool
  | JsVal.obj fields => fields.any (fun p => p.1 == "data")
  | _ => false

/-- The .then callback of sendChat: unwrap resp.data when resp is a
non-null object containing the key data, else pass resp through. -/
def sendChatUnwrap (resp : JsVal) : JsVal :=
  match resp with
  | JsVal.obj fields =>
    if hasDataKey (JsVal.obj fields) then
      match jsField (JsVal.obj fields) "data" with
      | some v => v
      | none => JsVal.null
    else JsVal.obj fields
  | v => v

/-! Token store and authenticated HTTP client, from src/services/api.ts.
The module-level mutable variables ACCESS_TOKEN, REFRESH_TOKEN and
ACCESS_EXPIRES_AT become the record TokState; the three localStorage
keys cb_access_token, cb_refresh_token and cb_access_expires_at become
the record Storage, whose entries are Option String (none models a
missing key, getItem returning null). Times are epoch milliseconds. -/

/-- The in-memory token state of the api module. -/
structure TokState where
  accessToken : String
  refreshToken : String
  accessExpiresAt : Int
deriving Repr, DecidableEq

/-- The three localStorage keys the token store uses. -/
structure Storage where
  cbAccessToken : Option String
  cbRefreshToken : Option String
  cbAccessExpiresAt : Option String
deriving Repr, DecidableEq

/-- The token bundle shape returned by the auth endpoints; expires_in is
in seconds and optional. -/
structure TokenBundle where
  access_token : String
  refresh_token : String
  expires_in : Option Int
deriving Repr, DecidableEq

/-- Decimal digit value of a character. -/
def digitVal (c : Char) : Nat := c.toNat - 48

/-- Value of a most-significant-first decimal digit string. -/
def digitsVal (l : List Char) : Nat := l.foldl (fun a c => 10 * a + digitVal c) 0

/-- Standard decimal digits of a natural number, most significant first. -/
def natChars (n : Nat) : List Char :=
  if n < 10 then [Char.ofNat (48 + n)]
  else natChars (n / 10) ++ [Char.ofNat (48 + n % 10)]
decreasing_by exact Nat.div_lt_self (by omega) (by omega)

/-- JavaScript String(n) for an integral number: decimal, with a leading
minus sign when negative. -/
def intToStr (i : Int) : String :=
  if i < 0 then "-" ++ String.mk (natChars i.natAbs) else String.mk (natChars i.toNat)

/-- Character-list worker for jsNumber. -/
def jsNumberData : List Char → Int
  | [] => 0
  | c :: rest => if c = '-' then -(digitsVal rest : Int) else (digitsVal (c :: rest) : Int)

/-- JavaScript Number(s), restricted to the optional-sign decimal integer
strings this program writes to storage (the only shape the round-trip
concerns): an optional leading minus sign followed by decimal digits. -/
def jsNumber (s : String) : Int := jsNumberData s.data

/-- loadTokens: read the three storage keys into the in-memory state,
with getItem(k) or-else the empty string for the tokens, and
Number(getItem(k) or-else the string 0) for the expiry. -/
def loadTokens (sto : Storage) : TokState :=
  { accessToken := sto.cbAccessToken.getD ""
  , refreshToken := sto.cbRefreshToken.getD ""
  , accessExpiresAt :=
      jsNumber (match sto.cbAccessExpiresAt with
        | some s => if s = "" then "0" else s
        | none => "0") }

/-- saveTokens at time now: set the in-memory state from the bundle with
expiry now plus 1000 times expires_in (default 900 seconds) minus a 5000
millisecond safety buffer, and write all three values to storage, the
expiry stringified. -/
def saveTokens (now : Int) (b : TokenBundle) : TokState × Storage :=
  let ttl := (b.expires_in.getD 900) * 1000
  let exp := now + ttl - 5000
  ({ accessToken := b.access_token, refreshToken := b.refresh_token, accessExpiresAt := exp },
   { cbAccessToken := some b.access_token
   , cbRefreshToken := some b.refresh_token
   , cbAccessExpiresAt := some (intToStr exp) })

/-- res.ok of a fetch Response: status in the range 200 to 299. -/
def resOk (status : Nat) : Bool := if 200 ≤ status ∧ status ≤ 299 then true else false

/-- Environment of loginIfNeeded: the build-time constants, the current
time, and the response the /auth/login endpoint would give. -/
structure LoginEnv where
  staticBearer : String
  apiUsername : String
  apiPassword : String
  now : Int
  loginStatus : Nat
  loginBundle : TokenBundle
deriving Repr, DecidableEq

/-- Result of loginIfNeeded: whether /auth/login was POSTed, the state
and storage afterwards, and the error message when it threw. -/
structure LoginResult where
  fetchedLogin : Bool
  st : TokState
  sto : Storage
  err : Option String
deriving Repr, DecidableEq

/-- loginIfNeeded: with a static bearer configured install it with a one
hour expiry and return; otherwise load stored tokens, return when the
loaded access token is non-empty and unexpired, return when a credential
is missing, else POST /auth/login, throwing on a non-ok response and
saving the returned bundle on success. -/
def loginIfNeeded (env : LoginEnv) (st : TokState) (sto : Storage) : LoginResult :=
  if env.staticBearer ≠ "" then
    { fetchedLogin := false
    , st := { st with accessToken := env.staticBearer, accessExpiresAt := env.now + 3600000 }
    , sto := sto, err := none }
  else
    let st1 := loadTokens sto
    if st1.accessToken ≠ "" ∧ env.now < st1.accessExpiresAt then
      { fetchedLogin := false, st := st1, sto := sto, err := none }
    else if env.apiUsername = "" ∨ env.apiPassword = "" then
      { fetchedLogin := false, st := st1, sto := sto, err := none }
    else if resOk env.loginStatus = false then
      { fetchedLogin := true, st := st1, sto := sto
      , err := some ("Auth login failed: HTTP " ++ toString env.loginStatus) }
    else
      let p := saveTokens env.now env.loginBundle
      { fetchedLogin := true, st := p.1, sto := p.2, err := none }

/-- Environment of refreshIfPossible: the current time and the response
the /auth/refresh endpoint would give. -/
structure RefreshEnv where
  now : Int
  refreshStatus : Nat
  newAccessToken : String
  newExpiresIn : Option Int
deriving Repr, DecidableEq

/-- refreshIfPossible: false when no refresh token is held or the
endpoint answers non-ok (state untouched); on success save the new
access token alongside the existing refresh token and return true. -/
def refreshIfPossible (env : RefreshEnv) (st : TokState) (sto : Storage) :
    Bool × TokState × Storage :=
  if st.refreshToken = "" then (false, st, sto)
  else if resOk env.refreshStatus = false then (false, st, sto)
  else
    let p := saveTokens env.now
      { access_token := env.newAccessToken
      , refresh_token := st.refreshToken
      , expires_in := env.newExpiresIn }
    (true, p.1, p.2)

/-- Environment of one http call: the login environment, the status the
target URL answers on the first fetch, the refresh environment, and the
status the target URL answers on a retry. -/
structure HttpEnv where
  login : LoginEnv
  res1Status : Nat
  refresh : RefreshEnv
  res2Status : Nat
deriving Repr, DecidableEq

/-- Fetch-level outcome of http: how often the target URL was fetched,
the status of the final response, and whether a retry happened. -/
structure HttpFetchResult where
  targetFetchCount : Nat
  finalStatus : Nat
  retried : Bool
deriving Repr, DecidableEq

/-- The fetch phase of http: loginIfNeeded with errors swallowed, one
fetch of the target URL, and exactly when it answers 401 with no static
bearer configured and refreshIfPossible succeeds, one retry. -/
def httpFetchPhase (env : HttpEnv) (st0 : TokState) (sto0 : Storage) :
    HttpFetchResult × TokState × Storage :=
  let lr := loginIfNeeded env.login st0 sto0
  if env.res1Status = 401 ∧ env.login.staticBearer = "" then
    let r := refreshIfPossible env.refresh lr.st lr.sto
    if r.1 then
      ({ targetFetchCount := 2, finalStatus := env.res2Status, retried := true }, r.2.1, r.2.2)
    else
      ({ targetFetchCount := 1, finalStatus := env.res1Status, retried := false }, r.2.1, r.2.2)
  else
    ({ targetFetchCount := 1, finalStatus := env.res1Status, retried := false }, lr.st, lr.sto)

/-- A headers object, restricted to the two headers this client sets;
none models an absent header. -/
structure HeadersM where
  contentType : Option String
  authorization : Option String
deriving Repr, DecidableEq

/-- A RequestInit value; none in headers models an init object without a
headers property. -/
structure RequestInitM where
  method : Option String
  body : Option String
  headers : Option HeadersM
deriving Repr, DecidableEq

/-- The headers doFetch passes to fetch: Content-Type application/json
plus Authorization Bearer token when the access token is non-empty --
unless the spread of init supplies its own headers object, which
replaces the whole construction because init is spread after headers. -/
def doFetchHeaders (accessToken : String) (init : RequestInitM) : HeadersM :=
  match init.headers with
  | some h => h
  | none =>
    { contentType := some "application/json"
    , authorization :=
        if accessToken = "" then none else some ("Bearer " ++ accessToken) }

/-- The init value sendChat passes to http. -/
def sendChatInit (body : String) : RequestInitM :=
  { method := some "POST", body := some body, headers := none }

/-- The init value extractParams passes to http. -/
def extractParamsInit (body : String) : RequestInitM :=
  { method := some "POST", body := some body, headers := none }

/-- JavaScript s.slice(0, n): the first n characters of s. -/
def jsSliceStr (s : String) (n : Nat) : String := String.mk (s.data.take n)

/-- A final response as http consumes it: its status and its body text,
none modelling a body read that throws. -/
structure FinalRes where
  status : Nat
  text : Option String
deriving Repr, DecidableEq

/-- The response-consumption phase of http, parameterised over
JSON.parse (parse t is none exactly when t is not valid JSON): on a
non-ok status throw HTTP status with up to 500 characters of the body
appended when available; on ok with an empty body resolve with the empty
object; on ok with a body that fails to parse throw Invalid JSON
response; else resolve with the parsed value. -/
def httpFinalize (parse : String → Option JsVal) (r : FinalRes) : Except String JsVal :=
  if resOk r.status = false then
    let detail := jsSliceStr (r.text.getD "") 500
    Except.error ("HTTP " ++ toString r.status ++ (if detail = "" then "" else ": " ++ detail))
  else
    match r.text with
    | none => Except.error "body read failed"
    | some t =>
      if t = "" then Except.ok (JsVal.obj [])
      else
        match parse t with
        | some v => Except.ok v
        | none => Except.error "Invalid JSON response"

/-! Pagination of property listings, from the Chatbot component. -/

/-- What one rendered batch of property cards shows: the cards, and the
count the Show More control announces when one is offered. -/
structure RenderedBatch (α : Type) where
  cards : List α
  showMoreCount : Option Nat
deriving Repr, DecidableEq

/-- renderProperties items remaining: one card per item, and a Show More
control announcing remaining exactly when remaining is positive. -/
def renderProperties {α : Type} (items : List α) (remaining : Nat) : RenderedBatch α :=
  { cards := items, showMoreCount := if remaining > 0 then some remaining else none }

/-- The first rendered page after a search: renderProperties of
list.slice(0, 3) with count minus 3 remaining when count exceeds 3,
else 0. -/
def initialPropertiesBatch {α : Type} (list : List α) : RenderedBatch α :=
  renderProperties (list.take 3)
    (if list.length > 3 then list.length - 3 else 0)

/-- The pagination state of the component. -/
structure Pagination where
  currentPage : Nat
  itemsPerPage : Nat
deriving Repr, DecidableEq

/-- Array.prototype.slice with non-negative start and stop. -/
def jsSlice {α : Type} (l : List α) (start stop : Nat) : List α :=
  (l.drop start).take (stop - start)

/-- showMore: compute the next page's slice; when it is empty do nothing,
else append a batch of it with the count of what remains afterwards and
advance the page counter. -/
def showMore {α : Type} (all : List α) (p : Pagination) :
    Pagination × Option (RenderedBatch α) :=
  let nextPage := p.currentPage + 1
  let start := (nextPage - 1) * p.itemsPerPage
  let stop := min (start + p.itemsPerPage) all.length
  let next := jsSlice all start stop
  if next.length = 0 then (p, none)
  else
    let remaining := all.length - stop
    ({ p with currentPage := nextPage }, some (renderProperties next remaining))

/-! Helper lemmas: decimal round-trip, coalescing chains, array-field
selection. -/

theorem digitsVal_append (l : List Char) (c : Char) :
    digitsVal (l ++ [c]) = 10 * digitsVal l + digitVal c := by
  simp [digitsVal, List.foldl_append]

theorem digitVal_char (d : Nat) (h : d < 10) :
    digitVal (Char.ofNat (48 + d)) = d := by
  interval_cases d <;> decide

theorem natChars_ne_nil (n : Nat) : natChars n ≠ [] := by
  rw [natChars]
  by_cases h : n < 10
  · rw [if_pos h]; simp
  · rw [if_neg h]; simp

theorem digitsVal_natChars (n : Nat) : digitsVal (natChars n) = n := by
  induction n using Nat.strong_induction_on with
  | _ n ih =>
    rw [natChars]
    by_cases h : n < 10
    · rw [if_pos h]
      simp [digitsVal]
      exact digitVal_char n h
    · rw [if_neg h]
      rw [digitsVal_append]
      rw [ih (n / 10) (Nat.div_lt_self (by omega) (by omega))]
      rw [digitVal_char (n % 10) (Nat.mod_lt n (by omega))]
      omega

theorem natChars_ne_dash (n : Nat) : ∀ c ∈ natChars n, c ≠ '-' := by
  induction n using Nat.strong_induction_on with
  | _ n ih =>
    intro c hc
    rw [natChars] at hc
    by_cases h : n < 10
    · rw [if_pos h] at hc
      simp at hc
      subst hc
      interval_cases n <;> decide
    · rw [if_neg h] at hc
      rcases List.mem_append.mp hc with h1 | h2
      · exact ih (n / 10) (Nat.div_lt_self (by omega) (by omega)) c h1
      · simp at h2
        subst h2
        have h10 : n % 10 < 10 := Nat.mod_lt n (by omega)
        revert h10
        generalize n % 10 = d
        intro h10
        interval_cases d <;> decide

theorem jsNumber_intToStr (i : Int) : jsNumber (intToStr i) = i := by
  unfold intToStr
  by_cases h : i < 0
  · rw [if_pos h]
    have hd : ("-" ++ String.mk (natChars i.natAbs)).data = '-' :: natChars i.natAbs := by simp
    unfold jsNumber
    rw [hd]
    simp only [jsNumberData]
    rw [if_pos trivial]
    rw [digitsVal_natChars]
    omega
  · rw [if_neg h]
    unfold jsNumber
    have hd : (String.mk (natChars i.toNat)).data = natChars i.toNat := rfl
    rw [hd]
    cases hx : natChars i.toNat with
    | nil => exact absurd hx (natChars_ne_nil _)
    | cons c rest =>
      simp only [jsNumberData]
      rw [if_neg (natChars_ne_dash i.toNat c (hx ▸ List.mem_cons_self c rest))]
      rw [← hx, digitsVal_natChars]
      omega

theorem intToStr_ne_empty (i : Int) : intToStr i ≠ "" := by
  unfold intToStr
  by_cases h : i < 0
  · rw [if_pos h]
    intro he
    have hd : ("-" ++ String.mk (natChars i.natAbs)).data = "".data := by rw [he]
    simp at hd
  · rw [if_neg h]
    intro he
    have hd : (String.mk (natChars i.toNat)).data = "".data := by rw [he]
    simp at hd
    exact natChars_ne_nil _ hd

theorem chainVal_eq_firstNonNullish (l : List (Option JsVal)) (d : JsVal) :
    chainVal l d = (firstNonNullish l).getD d := by
  induction l with
  | nil => rfl
  | cons x rest ih =>
    cases x with
    | none => simp [chainVal, firstNonNullish, jsCoalesce, ih]
    | some v => cases v <;> simp [chainVal, firstNonNullish, jsCoalesce, ih]

theorem arrField_of_arr (resp : JsVal) (k : String) (xs : List JsVal)
    (h : jsField resp k = some (JsVal.arr xs)) : arrField resp k = some (JsVal.arr xs) := by
  simp [arrField, h, isArrayVal]

theorem arrField_of_not_arr (resp : JsVal) (k : String)
    (h : ∀ xs, jsField resp k ≠ some (JsVal.arr xs)) : arrField resp k = none := by
  unfold arrField
  cases hf : jsField resp k with
  | none => rfl
  | some v =>
    cases v with
    | arr xs => exact absurd hf (h xs)
    | str s => simp [isArrayVal]
    | num n => simp [isArrayVal]
    | bool b => simp [isArrayVal]
    | null => simp [isArrayVal]
    | obj f => simp [isArrayVal]

/-- Claim C1: for every request issued through http the target URL is
fetched at most twice; a second fetch happens exactly when the first
response has status 401, no static bearer token is configured, and
refreshIfPossible returned true; in every other case the first response
is the final one, and on a retry the second response is. -/
theorem http_target_fetched_at_most_twice (env : HttpEnv) (st0 : TokState) (sto0 : Storage) :
    (httpFetchPhase env st0 sto0).1.targetFetchCount ≤ 2
  ∧ ((httpFetchPhase env st0 sto0).1.targetFetchCount = 2 ↔
      env.res1Status = 401 ∧ env.login.staticBearer = ""
      ∧ (refreshIfPossible env.refresh (loginIfNeeded env.login st0 sto0).st
          (loginIfNeeded env.login st0 sto0).sto).1 = true)
  ∧ ((httpFetchPhase env st0 sto0).1.targetFetchCount = 2 ↔
      (httpFetchPhase env st0 sto0).1.retried = true)
  ∧ (¬(env.res1Status = 401 ∧ env.login.staticBearer = ""
      ∧ (refreshIfPossible env.refresh (loginIfNeeded env.login st0 sto0).st
          (loginIfNeeded env.login st0 sto0).sto).1 = true) →
      (httpFetchPhase env st0 sto0).1.targetFetchCount = 1
      ∧ (httpFetchPhase env st0 sto0).1.finalStatus = env.res1Status)
  ∧ ((httpFetchPhase env st0 sto0).1.targetFetchCount = 2 →
      (httpFetchPhase env st0 sto0).1.finalStatus = env.res2Status) := by
  by_cases h : env.res1Status = 401 ∧ env.login.staticBearer = ""
  · by_cases hr : (refreshIfPossible env.refresh (loginIfNeeded env.login st0 sto0).st
        (loginIfNeeded env.login st0 sto0).sto).1 = true
    · simp [httpFetchPhase, h, hr]
    · simp [httpFetchPhase, h, hr]
  · simp [httpFetchPhase, h]
    tauto

/-- Claim C1 witness: with no static bearer, a stored refresh token, a
first response of 401 and a successful refresh, the target URL is
fetched twice. -/
theorem http_target_fetched_at_most_twice_witness :
    (httpFetchPhase
      { login := { staticBearer := "", apiUsername := "", apiPassword := ""
                 , now := 0, loginStatus := 500, loginBundle := { access_token := "", refresh_token := "", expires_in := none } }
      , res1Status := 401
      , refresh := { now := 0, refreshStatus := 200, newAccessToken := "A2", newExpiresIn := none }
      , res2Status := 200 }
      { accessToken := "", refreshToken := "", accessExpiresAt := 0 }
      { cbAccessToken := none, cbRefreshToken := some "R", cbAccessExpiresAt := none }).1.targetFetchCount = 2 := by
  exact (http_target_fetched_at_most_twice _ _ _).2.1.mpr ⟨rfl, rfl, rfl⟩

/-- Claim C2: sendPrompt selects the button source as the first of the
reply fields buttons, options, choices whose value is an array (no
buttons are produced when none is), the dropdown source as the first of
dropdown, select_options whose value is an array, and maps the chosen
array through normalizeOptions into the uniform label-value model. -/
theorem sendPrompt_source_selection (resp : JsVal) :
    (∀ xs, jsField resp "buttons" = some (JsVal.arr xs) →
        rawButtons resp = some (JsVal.arr xs))
  ∧ ((∀ xs, jsField resp "buttons" ≠ some (JsVal.arr xs)) →
      ∀ xs, jsField resp "options" = some (JsVal.arr xs) →
        rawButtons resp = some (JsVal.arr xs))
  ∧ ((∀ xs, jsField resp "buttons" ≠ some (JsVal.arr xs)) →
     (∀ xs, jsField resp "options" ≠ some (JsVal.arr xs)) →
      ∀ xs, jsField resp "choices" = some (JsVal.arr xs) →
        rawButtons resp = some (JsVal.arr xs))
  ∧ ((∀ xs, jsField resp "buttons" ≠ some (JsVal.arr xs)) →
     (∀ xs, jsField resp "options" ≠ some (JsVal.arr xs)) →
     (∀ xs, jsField resp "choices" ≠ some (JsVal.arr xs)) →
        rawButtons resp = none ∧ sendPromptButtons resp = none)
  ∧ (∀ xs, jsField resp "dropdown" = some (JsVal.arr xs) →
        rawDropdown resp = some (JsVal.arr xs))
  ∧ ((∀ xs, jsField resp "dropdown" ≠ some (JsVal.arr xs)) →
      ∀ xs, jsField resp "select_options" = some (JsVal.arr xs) →
        rawDropdown resp = some (JsVal.arr xs))
  ∧ ((∀ xs, jsField resp "dropdown" ≠ some (JsVal.arr xs)) →
     (∀ xs, jsField resp "select_options" ≠ some (JsVal.arr xs)) →
        rawDropdown resp = none ∧ sendPromptDropdown resp = none)
  ∧ (∀ v, rawButtons resp = some v → sendPromptButtons resp = some (normalizeOptions v))
  ∧ (∀ v, rawDropdown resp = some v → sendPromptDropdown resp = some (normalizeOptions v)) := by
  refine ⟨?_, ?_, ?_, ?_, ?_, ?_, ?_, ?_, ?_⟩
  · intro xs h
    simp [rawButtons, arrField_of_arr resp "buttons" xs h]
  · intro hb xs h
    simp [rawButtons, arrField_of_not_arr resp "buttons" hb,
      arrField_of_arr resp "options" xs h]
  · intro hb ho xs h
    simp [rawButtons, arrField_of_not_arr resp "buttons" hb,
      arrField_of_not_arr resp "options" ho, arrField_of_arr resp "choices" xs h]
  · intro hb ho hc
    have hr : rawButtons resp = none := by
      simp [rawButtons, arrField_of_not_arr resp "buttons" hb,
        arrField_of_not_arr resp "options" ho, arrField_of_not_arr resp "choices" hc]
    exact ⟨hr, by simp [sendPromptButtons, hr]⟩
  · intro xs h
    simp [rawDropdown, arrField_of_arr resp "dropdown" xs h]
  · intro hd xs h
    simp [rawDropdown, arrField_of_not_arr resp "dropdown" hd,
      arrField_of_arr resp "select_options" xs h]
  · intro hd hs
    have hr : rawDropdown resp = none := by
      simp [rawDropdown, arrField_of_not_arr resp "dropdown" hd,
        arrField_of_not_arr resp "select_options" hs]
    exact ⟨hr, by simp [sendPromptDropdown, hr]⟩
  · intro v h
    simp [sendPromptButtons, h]
  · intro v h
    simp [sendPromptDropdown, h]

/-- Claim C2 witness: a reply without a buttons field but with an
options array selects the options array. -/
theorem sendPrompt_source_selection_witness :
    rawButtons (JsVal.obj [("options", JsVal.arr [JsVal.str "x"])]) =
      some (JsVal.arr [JsVal.str "x"]) := by
  refine (sendPrompt_source_selection (JsVal.obj [("options", JsVal.arr [JsVal.str "x"])])).2.1
    ?_ [JsVal.str "x"] rfl
  intro xs h
  rw [show jsField (JsVal.obj [("options", JsVal.arr [JsVal.str "x"])]) "buttons" = none
    from rfl] at h
  exact Option.noConfusion h

/-- Claim C3: normalizeOptions maps an array whose first element is a
string elementwise to String(s) as both label and value; any other
non-empty array elementwise to the pair whose label stringifies the
first non-nullish of the fields label, text, name, title, value, id
(else the empty string) and whose value stringifies the first
non-nullish of value, id, label, text, name (else the empty string);
empty arrays and non-arrays give the empty list. -/
theorem normalizeOptions_shape :
    (∀ s rest, normalizeOptions (JsVal.arr (JsVal.str s :: rest)) =
        (JsVal.str s :: rest).map (fun v => { label := jsToString v, value := jsToString v }))
  ∧ (∀ x rest, (∀ s, x ≠ JsVal.str s) →
      normalizeOptions (JsVal.arr (x :: rest)) = (x :: rest).map normalizeObjOption)
  ∧ (∀ o, (normalizeObjOption o).label =
      (match firstNonNullish [jsField o "label", jsField o "text", jsField o "name",
          jsField o "title", jsField o "value", jsField o "id"] with
       | some v => jsToString v
       | none => ""))
  ∧ (∀ o, (normalizeObjOption o).value =
      (match firstNonNullish [jsField o "value", jsField o "id", jsField o "label",
          jsField o "text", jsField o "name"] with
       | some v => jsToString v
       | none => ""))
  ∧ normalizeOptions (JsVal.arr []) = []
  ∧ (∀ v, isArrayVal v = false → normalizeOptions v = []) := by
  refine ⟨?_, ?_, ?_, ?_, rfl, ?_⟩
  · intro s rest; rfl
  · intro x rest hx
    cases x with
    | str s => exact absurd rfl (hx s)
    | num n => rfl
    | bool b => rfl
    | null => rfl
    | arr xs => rfl
    | obj f => rfl
  · intro o
    have h : (normalizeObjOption o).label =
        jsToString (chainVal [jsField o "label", jsField o "text", jsField o "name",
            jsField o "title", jsField o "value", jsField o "id"] (JsVal.str "")) := rfl
    rw [h, chainVal_eq_firstNonNullish]
    cases hf : firstNonNullish [jsField o "label", jsField o "text", jsField o "name",
        jsField o "title", jsField o "value", jsField o "id"] <;> simp [jsToString]
  · intro o
    have h : (normalizeObjOption o).value =
        jsToString (chainVal [jsField o "value", jsField o "id", jsField o "label",
            jsField o "text", jsField o "name"] (JsVal.str "")) := rfl
    rw [h, chainVal_eq_firstNonNullish]
    cases hf : firstNonNullish [jsField o "value", jsField o "id", jsField o "label",
        jsField o "text", jsField o "name"] <;> simp [jsToString]
  · intro v hv
    cases v with
    | arr xs => simp [isArrayVal] at hv
    | str s => rfl
    | num n => rfl
    | bool b => rfl
    | null => rfl
    | obj f => rfl

/-- Claim C3 witness: a singleton array holding a number (not a string)
goes through the object branch, whose field chains are all absent, so
both label and value are empty. -/
theorem normalizeOptions_shape_witness :
    normalizeOptions (JsVal.arr [JsVal.num 1]) = [{ label := "", value := "" }] := by
  have h := normalizeOptions_shape.2.1 (JsVal.num 1) [] (fun s hs => JsVal.noConfusion hs)
  exact h.trans rfl

/-- Claim C4: loginIfNeeded performs no login request when a static
bearer is configured (installing it with a one-hour expiry), or when
the loaded access token is non-empty and unexpired, or when a
credential is missing; only otherwise does it POST the credentials,
throwing on a non-ok response and saving the bundle on success. -/
theorem loginIfNeeded_conditions (env : LoginEnv) (st : TokState) (sto : Storage) :
    (env.staticBearer ≠ "" →
      loginIfNeeded env st sto =
        { fetchedLogin := false
        , st := { st with accessToken := env.staticBearer, accessExpiresAt := env.now + 3600000 }
        , sto := sto, err := none })
  ∧ (env.staticBearer = "" → (loadTokens sto).accessToken ≠ "" →
      env.now < (loadTokens sto).accessExpiresAt →
      loginIfNeeded env st sto =
        { fetchedLogin := false, st := loadTokens sto, sto := sto, err := none })
  ∧ (env.staticBearer = "" →
      ¬((loadTokens sto).accessToken ≠ "" ∧ env.now < (loadTokens sto).accessExpiresAt) →
      (env.apiUsername = "" ∨ env.apiPassword = "") →
      loginIfNeeded env st sto =
        { fetchedLogin := false, st := loadTokens sto, sto := sto, err := none })
  ∧ (env.staticBearer = "" →
      ¬((loadTokens sto).accessToken ≠ "" ∧ env.now < (loadTokens sto).accessExpiresAt) →
      env.apiUsername ≠ "" → env.apiPassword ≠ "" →
      (loginIfNeeded env st sto).fetchedLogin = true
      ∧ (resOk env.loginStatus = false →
          loginIfNeeded env st sto =
            { fetchedLogin := true, st := loadTokens sto, sto := sto
            , err := some ("Auth login failed: HTTP " ++ toString env.loginStatus) })
      ∧ (resOk env.loginStatus = true →
          loginIfNeeded env st sto =
            { fetchedLogin := true, st := (saveTokens env.now env.loginBundle).1
            , sto := (saveTokens env.now env.loginBundle).2, err := none })) := by
  refine ⟨?_, ?_, ?_, ?_⟩
  · intro h
    simp [loginIfNeeded, h]
  · intro h h1 h2
    simp [loginIfNeeded, h, h1, h2]
  · intro h h1 h2
    simp only [loginIfNeeded, h]
    rw [if_neg (by simp)]
    rw [if_neg h1]
    rw [if_pos h2]
  · intro h h1 h2 h3
    refine ⟨?_, ?_, ?_⟩
    · simp only [loginIfNeeded, h]
      rw [if_neg (by simp), if_neg h1, if_neg (by tauto)]
      by_cases hr : resOk env.loginStatus = false
      · rw [if_pos hr]
      · rw [if_neg hr]
    · intro hr
      simp only [loginIfNeeded, h]
      rw [if_neg (by simp), if_neg h1, if_neg (by tauto), if_pos hr]
    · intro hr
      simp only [loginIfNeeded, h]
      rw [if_neg (by simp), if_neg h1, if_neg (by tauto), if_neg (by simp [hr])]

/-- Claim C4 witness: with no static bearer, empty storage, both
credentials present and an ok login response, loginIfNeeded logs in and
saves the returned bundle. -/
theorem loginIfNeeded_conditions_witness :
    loginIfNeeded
      { staticBearer := "", apiUsername := "u", apiPassword := "p", now := 1000
      , loginStatus := 200
      , loginBundle := { access_token := "A", refresh_token := "R", expires_in := some 60 } }
      { accessToken := "", refreshToken := "", accessExpiresAt := 0 }
      { cbAccessToken := none, cbRefreshToken := none, cbAccessExpiresAt := none } =
      { fetchedLogin := true
      , st := { accessToken := "A", refreshToken := "R", accessExpiresAt := 56000 }
      , sto := { cbAccessToken := some "A", cbRefreshToken := some "R"
               , cbAccessExpiresAt := some (intToStr 56000) }
      , err := none } := by
  have h := (loginIfNeeded_conditions
    { staticBearer := "", apiUsername := "u", apiPassword := "p", now := 1000
    , loginStatus := 200
    , loginBundle := { access_token := "A", refresh_token := "R", expires_in := some 60 } }
    { accessToken := "", refreshToken := "", accessExpiresAt := 0 }
    { cbAccessToken := none, cbRefreshToken := none, cbAccessExpiresAt := none }).2.2.2
      rfl (by decide) (by decide) (by decide)
  refine (h.2.2 rfl).trans ?_
  simp only [saveTokens]
  norm_num

/-- Claim C5: saveTokens writes the access token, the refresh token and
the stringified computed expiry (save time plus 1000 times expires_in,
defaulting to 900 seconds, minus a 5000 ms buffer) to the three storage
keys, sets the in-memory state to the same values, and a subsequent
loadTokens restores exactly that state from storage. -/
theorem saveTokens_loadTokens_roundtrip (now : Int) (b : TokenBundle) :
    (saveTokens now b).2.cbAccessToken = some b.access_token
  ∧ (saveTokens now b).2.cbRefreshToken = some b.refresh_token
  ∧ (saveTokens now b).2.cbAccessExpiresAt =
      some (intToStr (now + (b.expires_in.getD 900) * 1000 - 5000))
  ∧ (saveTokens now b).1 =
      { accessToken := b.access_token, refreshToken := b.refresh_token
      , accessExpiresAt := now + (b.expires_in.getD 900) * 1000 - 5000 }
  ∧ loadTokens (saveTokens now b).2 = (saveTokens now b).1 := by
  refine ⟨rfl, rfl, rfl, rfl, ?_⟩
  simp only [saveTokens, loadTokens]
  rw [if_neg (intToStr_ne_empty _)]
  simp [jsNumber_intToStr]

/-- Claim C6: the first rendered page shows exactly min(N, 3) property
cards, in list order, with a Show More control announcing N minus 3
exactly when N exceeds 3; every showMore call from a reachable
pagination state renders the next at-most-3 properties in list order and
advances the page, and does nothing (no batch, page unchanged) once
every property has been shown. -/
theorem property_pagination (α : Type) (list : List α) :
    (initialPropertiesBatch list).cards = list.take 3
  ∧ (initialPropertiesBatch list).cards.length = min list.length 3
  ∧ (3 < list.length → (initialPropertiesBatch list).showMoreCount = some (list.length - 3))
  ∧ (list.length ≤ 3 → (initialPropertiesBatch list).showMoreCount = none)
  ∧ (∀ p : Pagination, p.itemsPerPage = 3 → p.currentPage * 3 < list.length →
      showMore list p =
        ({ currentPage := p.currentPage + 1, itemsPerPage := 3 },
         some (renderProperties
           (jsSlice list (p.currentPage * 3) (min (p.currentPage * 3 + 3) list.length))
           (list.length - min (p.currentPage * 3 + 3) list.length))))
  ∧ (∀ p : Pagination, p.itemsPerPage = 3 → p.currentPage * 3 < list.length →
      ∀ b, (showMore list p).2 = some b →
        b.cards = (list.drop (p.currentPage * 3)).take 3 ∧ b.cards.length ≤ 3)
  ∧ (∀ p : Pagination, p.itemsPerPage = 3 → list.length ≤ p.currentPage * 3 →
      showMore list p = (p, none)) := by
  refine ⟨rfl, ?_, ?_, ?_, ?_, ?_, ?_⟩
  · simp only [initialPropertiesBatch, renderProperties, List.length_take]
    omega
  · intro h
    simp only [initialPropertiesBatch, renderProperties]
    rw [if_pos (show list.length > 3 from h)]
    rw [if_pos (show list.length - 3 > 0 by omega)]
  · intro h
    simp only [initialPropertiesBatch, renderProperties]
    rw [if_neg (show ¬(list.length > 3) by omega)]
    rw [if_neg (show ¬((0 : Nat) > 0) by omega)]
  · intro p hpp hlt
    simp only [showMore, jsSlice, hpp, Nat.add_sub_cancel]
    rw [if_neg ?hne]
    case hne =>
      simp only [List.length_take, List.length_drop]
      omega
  · intro p hpp hlt b hb
    simp only [showMore, jsSlice, hpp, Nat.add_sub_cancel] at hb
    rw [if_neg ?hne2] at hb
    case hne2 =>
      simp only [List.length_take, List.length_drop]
      omega
    simp only [Option.some.injEq] at hb
    subst hb
    constructor
    · simp only [renderProperties]
      rcases Nat.le_total (p.currentPage * 3 + 3) list.length with hc | hc
      · have hm : min (p.currentPage * 3 + 3) list.length - p.currentPage * 3 = 3 := by omega
        rw [hm]
      · have hm : min (p.currentPage * 3 + 3) list.length - p.currentPage * 3 =
            list.length - p.currentPage * 3 := by omega
        rw [hm]
        rw [List.take_of_length_le (by simp), List.take_of_length_le (by simp; omega)]
    · simp only [renderProperties, List.length_take, List.length_drop]
      omega
  · intro p hpp hle
    simp only [showMore, jsSlice, hpp, Nat.add_sub_cancel]
    rw [if_pos ?hz]
    case hz =>
      simp only [List.length_take, List.length_drop]
      omega

/-- Claim C6 witness: with four properties and page 1, showMore renders
the single remaining property and offers no further control. -/
theorem property_pagination_witness :
    showMore ["a", "b", "c", "d"] { currentPage := 1, itemsPerPage := 3 } =
      ({ currentPage := 2, itemsPerPage := 3 },
       some { cards := ["d"], showMoreCount := none }) := by
  have h := (property_pagination String ["a", "b", "c", "d"]).2.2.2.2.1
    { currentPage := 1, itemsPerPage := 3 } rfl (by decide)
  exact h.trans (by decide)

/-- Claim C7: when the init passed to http carries no headers field (as
at every call site of this repository), the fetch carries Content-Type
application/json, carries Authorization Bearer followed by the access
token exactly when that token is non-empty, and no Authorization header
when it is empty. -/
theorem http_bearer_attachment (accessToken : String) (init : RequestInitM)
    (h : init.headers = none) :
    (doFetchHeaders accessToken init).contentType = some "application/json"
  ∧ (accessToken ≠ "" →
      (doFetchHeaders accessToken init).authorization = some ("Bearer " ++ accessToken))
  ∧ (accessToken = "" → (doFetchHeaders accessToken init).authorization = none) := by
  refine ⟨?_, ?_, ?_⟩
  · simp [doFetchHeaders, h]
  · intro ht
    simp [doFetchHeaders, h, ht]
  · intro ht
    simp [doFetchHeaders, h, ht]

/-- Claim C7 witness: the init sendChat builds carries no headers field,
and with a non-empty access token the fetch headers carry the bearer. -/
theorem http_bearer_attachment_witness :
    (doFetchHeaders "tok" (sendChatInit "x")).contentType = some "application/json"
  ∧ (doFetchHeaders "tok" (sendChatInit "x")).authorization = some ("Bearer " ++ "tok") := by
  have h := http_bearer_attachment "tok" (sendChatInit "x") rfl
  exact ⟨h.1, h.2.1 (by decide)⟩

/-- Claim C8: refreshIfPossible with an empty stored refresh token or a
non-ok refresh response returns false and leaves every token field of
state and storage unchanged; on success it keeps the old refresh token
(re-saving it alongside the new access token) and updates only the
access token and its expiry. -/
theorem refreshIfPossible_frame (env : RefreshEnv) (st : TokState) (sto : Storage) :
    (st.refreshToken = "" → refreshIfPossible env st sto = (false, st, sto))
  ∧ (st.refreshToken ≠ "" → resOk env.refreshStatus = false →
      refreshIfPossible env st sto = (false, st, sto))
  ∧ ((refreshIfPossible env st sto).1 = true →
      (refreshIfPossible env st sto).2.1.refreshToken = st.refreshToken
      ∧ (refreshIfPossible env st sto).2.2.cbRefreshToken = some st.refreshToken
      ∧ (refreshIfPossible env st sto).2.1.accessToken = env.newAccessToken
      ∧ (refreshIfPossible env st sto).2.1.accessExpiresAt =
          env.now + (env.newExpiresIn.getD 900) * 1000 - 5000)
  ∧ ((refreshIfPossible env st sto).1 = false →
      refreshIfPossible env st sto = (false, st, sto)) := by
  refine ⟨?_, ?_, ?_, ?_⟩
  · intro h
    simp [refreshIfPossible, h]
  · intro h h1
    simp [refreshIfPossible, h, h1]
  · intro h
    by_cases h0 : st.refreshToken = ""
    · simp [refreshIfPossible, h0] at h
    · by_cases h1 : resOk env.refreshStatus = false
      · simp [refreshIfPossible, h0, h1] at h
      · simp [refreshIfPossible, h0, h1, saveTokens]
  · intro h
    by_cases h0 : st.refreshToken = ""
    · simp [refreshIfPossible, h0]
    · by_cases h1 : resOk env.refreshStatus = false
      · simp [refreshIfPossible, h0, h1]
      · simp [refreshIfPossible, h0, h1] at h

/-- Claim C8 witness: a successful refresh keeps the held refresh token
and installs the new access token. -/
theorem refreshIfPossible_frame_witness :
    (refreshIfPossible { now := 0, refreshStatus := 200, newAccessToken := "A2", newExpiresIn := none }
      { accessToken := "A", refreshToken := "R", accessExpiresAt := 0 }
      { cbAccessToken := some "A", cbRefreshToken := some "R", cbAccessExpiresAt := some "0" }).2.1.refreshToken = "R"
  ∧ (refreshIfPossible { now := 0, refreshStatus := 200, newAccessToken := "A2", newExpiresIn := none }
      { accessToken := "A", refreshToken := "R", accessExpiresAt := 0 }
      { cbAccessToken := some "A", cbRefreshToken := some "R", cbAccessExpiresAt := some "0" }).2.1.accessToken = "A2" := by
  have h := (refreshIfPossible_frame
    { now := 0, refreshStatus := 200, newAccessToken := "A2", newExpiresIn := none }
    { accessToken := "A", refreshToken := "R", accessExpiresAt := 0 }
    { cbAccessToken := some "A", cbRefreshToken := some "R", cbAccessExpiresAt := some "0" }).2.2.1 rfl
  exact ⟨h.1, h.2.2.1⟩

/-- Claim C9: a non-ok final response makes http reject with a message
that is HTTP followed by the status code, with at most 500 characters
of body text appended when available; an ok response with empty body
resolves with the empty object; an ok response whose non-empty body
fails to parse rejects with Invalid JSON response; otherwise http
resolves with the parsed JSON. -/
theorem http_response_finalization (parse : String → Option JsVal) (r : FinalRes) :
    (resOk r.status = false →
      ∃ d, httpFinalize parse r = Except.error ("HTTP " ++ toString r.status ++ d)
        ∧ d.length ≤ 502
        ∧ (r.text = none → d = "")
        ∧ (∀ t, r.text = some t →
            d = (if jsSliceStr t 500 = "" then "" else ": " ++ jsSliceStr t 500)))
  ∧ (resOk r.status = true → r.text = some "" →
      httpFinalize parse r = Except.ok (JsVal.obj []))
  ∧ (resOk r.status = true → ∀ t, r.text = some t → t ≠ "" → parse t = none →
      httpFinalize parse r = Except.error "Invalid JSON response")
  ∧ (resOk r.status = true → ∀ t v, r.text = some t → t ≠ "" → parse t = some v →
      httpFinalize parse r = Except.ok v) := by
  refine ⟨?_, ?_, ?_, ?_⟩
  · intro h
    refine ⟨if jsSliceStr (r.text.getD "") 500 = "" then ""
        else ": " ++ jsSliceStr (r.text.getD "") 500, ?_, ?_, ?_, ?_⟩
    · simp [httpFinalize, h]
    · by_cases he : jsSliceStr (r.text.getD "") 500 = ""
      · rw [if_pos he]
        decide
      · rw [if_neg he]
        have h1 : (jsSliceStr (r.text.getD "") 500).length ≤ 500 := by
          rw [← String.length_data]
          show (List.take 500 (r.text.getD "").data).length ≤ 500
          rw [List.length_take]
          omega
        have h2 : ((": " : String)).length = 2 := rfl
        simp [String.length_append]
        omega
    · intro ht
      simp only [ht, Option.getD_none]
      rw [if_pos (show jsSliceStr "" 500 = "" from rfl)]
    · intro t ht
      simp [ht]
  · intro h ht
    simp [httpFinalize, h, ht]
  · intro h t ht hne hp
    simp [httpFinalize, h, ht, hne, hp]
  · intro h t v ht hne hp
    simp [httpFinalize, h, ht, hne, hp]

/-- Claim C9 witness: an ok status with an empty body resolves with the
empty object. -/
theorem http_response_finalization_witness :
    httpFinalize (fun _ => none) { status := 204, text := some "" } =
      Except.ok (JsVal.obj []) := by
  exact (http_response_finalization (fun _ => none) { status := 204, text := some "" }).2.1
    rfl rfl

/-- Claim C10: the sendChat unwrapping resolves with the value of
reply.data whenever the reply is a non-null object containing the key
data (regardless of any success flag and of the shape of that value),
and resolves with the reply itself otherwise. -/
theorem sendChat_unwrap_data (resp : JsVal) :
    (hasDataKey resp = true →
      ∃ v, jsField resp "data" = some v ∧ sendChatUnwrap resp = v)
  ∧ (hasDataKey resp = false → sendChatUnwrap resp = resp) := by
  constructor
  · intro h
    cases resp with
    | obj fields =>
      cases hp : fields.reverse.find? (fun p => p.1 == "data") with
      | none =>
        obtain ⟨v0, hv0⟩ : ∃ x, ("data", x) ∈ fields := by simpa [hasDataKey] using h
        have hnone := List.find?_eq_none.mp hp ("data", v0) (List.mem_reverse.mpr hv0)
        simp at hnone
      | some p =>
        refine ⟨p.2, ?_, ?_⟩
        · simp [jsField, hp]
        · simp [sendChatUnwrap, h, jsField, hp]
    | str s => simp [hasDataKey] at h
    | num n => simp [hasDataKey] at h
    | bool b => simp [hasDataKey] at h
    | null => simp [hasDataKey] at h
    | arr xs => simp [hasDataKey] at h
  · intro h
    cases resp with
    | obj fields => simp [sendChatUnwrap, h]
    | str s => rfl
    | num n => rfl
    | bool b => rfl
    | null => rfl
    | arr xs => rfl

/-- Claim C10 witness: a wrapped reply with a success flag and a data
key unwraps to the data value. -/
theorem sendChat_unwrap_data_witness :
    sendChatUnwrap (JsVal.obj [("success", JsVal.bool true), ("data", JsVal.str "d")]) =
      JsVal.str "d" := by
  obtain ⟨v, hv, he⟩ :=
    (sendChat_unwrap_data (JsVal.obj [("success", JsVal.bool true), ("data", JsVal.str "d")])).1 rfl
  have hv2 : some v = some (JsVal.str "d") :=
    hv.symm.trans (show jsField (JsVal.obj [("success", JsVal.bool true), ("data", JsVal.str "d")]) "data" = some (JsVal.str "d") from rfl)
  injection hv2 with hv3
  exact hv3 ▸ he

end ChatbotFrontend
